import Mathlib

/-!
Shallow embedding of `apps/shared/avifjpeg.c`: the JPEG decode pipeline
(`avifJPEGRead`), the JPEG encode pipeline (`avifJPEGWrite`) and the alpha
removal helper (`avifRGBAToRGB`).

The external libjpeg codec is modelled through its narrow call protocol as an
abstract `JPEGFile` (dimensions, native colorspace, optional ICC marker bytes,
8-bit RGB rows) together with outcome parameters: the fopen results, the point
at which the codec raises a fatal error through the installed error callback,
and the success of the two image-library conversion collaborators.  Library
functions of the repository that are not part of this translation unit
(pixel-buffer allocation, ICC copy, premultiplication) are modelled from the
specification, as marked on each definition.
-/

set_option maxRecDepth 8192

/-- RGB memory formats used by the bridge (subset of `avifRGBFormat`). -/
inductive AvifRGBFormat
  | rgb
  | rgba
  deriving DecidableEq

/-- Chroma subsampling formats (`avifPixelFormat`). -/
inductive AvifPixelFormat
  | yuv444
  | yuv422
  | yuv420
  | yuv400
  deriving DecidableEq

/-- Chroma upsampling policies (`avifChromaUpsampling`). -/
inductive AvifChromaUpsampling
  | automatic
  | fastest
  | bestQuality
  | nearest
  | bilinear
  deriving DecidableEq

/-- JPEG colorspaces relevant to the bridge (subset of `J_COLOR_SPACE`). -/
inductive JColorSpace
  | rgb
  | ycbcr
  | grayscale
  | cmyk
  deriving DecidableEq

/-- Planar image: the fields of `avifImage` that the bridge reads or writes.
`yuvPopulated` abstracts the YUV pixel planes: it becomes true exactly when a
successful RGB-to-YUV conversion writes them.  `icc` holds the profile bytes;
the empty list is the "no profile" state (`icc.data && icc.size > 0` false). -/
structure AvifImage where
  width : Nat
  height : Nat
  depth : Nat
  yuvFormat : AvifPixelFormat
  alphaPremultiplied : Bool
  icc : List Nat
  yuvPopulated : Bool
  deriving DecidableEq

/-- Interleaved pixel buffer: the fields of `avifRGBImage` the bridge uses. -/
structure AvifRGBImage where
  width : Nat
  height : Nat
  format : AvifRGBFormat
  depth : Nat
  alphaPremultiplied : Bool
  chromaUpsampling : AvifChromaUpsampling
  rowBytes : Nat
  pixels : Array Nat
  deriving DecidableEq

/-- Channel count of an RGB memory format. -/
def AvifRGBFormat.channelCount : AvifRGBFormat → Nat
  | .rgb => 3
  | .rgba => 4

/-- Modelled from the spec: `avifRGBImageSetDefaults` (image-library collaborator,
not in this translation unit) initialises an RGB image from a planar image:
dimensions from the image, default RGBA layout, no buffer allocated yet. -/
def avifRGBImageSetDefaults (avif : AvifImage) : AvifRGBImage :=
  { width := avif.width
    height := avif.height
    format := AvifRGBFormat.rgba
    depth := avif.depth
    alphaPremultiplied := false
    chromaUpsampling := AvifChromaUpsampling.automatic
    rowBytes := 0
    pixels := #[] }

/-- Modelled from the spec: `avifRGBImageAllocatePixels` (image-library
collaborator, not in this translation unit) allocates the interleaved buffer
with row stride = width x channel count (one byte per channel at depth 8) and
capacity row stride x height.  Freshly allocated contents are unspecified in C;
they are modelled as zero bytes. -/
def avifRGBImageAllocatePixels (rgb : AvifRGBImage) : AvifRGBImage :=
  let rb := rgb.width * rgb.format.channelCount
  { rgb with rowBytes := rb, pixels := Array.mkArray (rb * rgb.height) 0 }

/-- Modelled from the spec: `avifImageSetProfileICC` (image-library collaborator,
not in this translation unit) copies the profile bytes into the image. -/
def avifImageSetProfileICC (avif : AvifImage) (bytes : List Nat) : AvifImage :=
  { avif with icc := bytes }

/-- `memcpy(dst + off, data, data.length)` on a byte array: the source bytes are
fully read before any write lands (which agrees with a forward byte copy for
every overlap pattern this file produces). -/
def writeBytes (px : Array Nat) (off : Nat) : List Nat → Array Nat
  | [] => px
  | b :: rest => writeBytes (px.setD off b) (off + 1) rest

/-- Modelled from the spec: `avifRGBImagePremultiplyAlpha` (image-library
collaborator, not in this translation unit) scales each color channel of each
RGBA pixel by alpha / 255, in place. -/
def avifRGBImagePremultiplyAlpha (rgb : AvifRGBImage) : AvifRGBImage :=
  let px := (List.range rgb.height).foldl (fun p j =>
    (List.range rgb.width).foldl (fun q i =>
      let off := j * rgb.rowBytes + i * 4
      let a := q.getD (off + 3) 0
      let q := q.setD off (q.getD off 0 * a / 255)
      let q := q.setD (off + 1) (q.getD (off + 1) 0 * a / 255)
      q.setD (off + 2) (q.getD (off + 2) 0 * a / 255)) p) rgb.pixels
  { rgb with pixels := px }

/-- Shallow embedding of `avifRGBAToRGB` (compiled when `JCS_ALPHA_EXTENSIONS`
is undefined).  Field settings, allocation and the copy loops follow the source
line by line.  In the source both row base pointers are computed from
`src->pixels` (`dstRow = &src->pixels[j * dst->rowBytes]`), so the per-pixel
3-byte copies land in the source buffer and the freshly allocated destination
buffer is never written.  Returns the (mutated) source and the destination. -/
def avifRGBAToRGB (src dst : AvifRGBImage) : AvifRGBImage × AvifRGBImage :=
  let dst1 := { dst with
    width := src.width
    height := src.height
    format := AvifRGBFormat.rgb
    depth := 8 }
  let dst2 := avifRGBImageAllocatePixels dst1
  let srcPx := (List.range src.height).foldl (fun p j =>
    (List.range src.width).foldl (fun q i =>
      writeBytes q (j * dst2.rowBytes + i * 3)
        [q.getD (j * src.rowBytes + i * 4) 0,
         q.getD (j * src.rowBytes + i * 4 + 1) 0,
         q.getD (j * src.rowBytes + i * 4 + 2) 0]) p) src.pixels
  ({ src with pixels := srcPx }, dst2)

/-- Abstract JPEG byte stream, as seen through the codec collaborator's narrow
interface: dimensions, native colorspace, optional ICC marker bytes, decoded /
encoded 8-bit RGB rows, quality setting. -/
structure JPEGFile where
  width : Nat
  height : Nat
  colorSpace : JColorSpace
  icc : Option (List Nat)
  rows : List (List Nat)
  quality : Nat
  deriving DecidableEq

/-- libjpeg's default output colorspace for a given source colorspace (codec
contract); `avifJPEGRead` overwrites it with RGB unconditionally. -/
def defaultOutColorSpace : JColorSpace → JColorSpace
  | .ycbcr => .rgb
  | .grayscale => .grayscale
  | .cmyk => .cmyk
  | .rgb => .rgb

/-- The points of the decode pipeline at which the codec can raise a fatal
error through `my_error_exit` (which longjmps back to the setjmp in
`avifJPEGRead`, i.e. jumps to the cleanup label). -/
inductive FatalPoint
  | atReadHeader
  | atStartDecompress
  | atScanline (n : Nat)
  | atFinish
  deriving DecidableEq

/-- Whether a fatal point actually fires on a given stream: a scanline error at
row `n` can only occur while row `n` is being read. -/
def FatalPoint.fires : FatalPoint → JPEGFile → Bool
  | .atReadHeader, _ => true
  | .atStartDecompress, _ => true
  | .atScanline n, file => decide (n < file.height)
  | .atFinish, _ => true

/-- The `rgb.rowBytes` bytes that `memcpy(pixelRow, buffer[0], rgb.rowBytes)`
reads from the codec scanline buffer holding decoded row `r`. -/
def scanlineBytes (rows : List (List Nat)) (r rowBytes : Nat) : List Nat :=
  (List.range rowBytes).map (fun k => (rows.getD r []).getD k 0)

/-- The decode scanline loop `while (cinfo.output_scanline < cinfo.output_height)`.
The codec advances `output_scanline` by exactly one per `jpeg_read_scanlines`
call, so the loop counter `row` always equals `output_scanline`, and `remaining`
is `output_height - output_scanline`.  A fatal codec error while reading row
`n` (`fatalScan = some n`) jumps out of the loop.  Returns the buffer, the
number of rows copied, and whether the fatal error fired. -/
def scanLoop (rows : List (List Nat)) (rowBytes : Nat) (fatalScan : Option Nat) :
    Nat → Nat → Array Nat → Array Nat × Nat × Bool
  | 0, row, px => (px, row, false)
  | remaining + 1, row, px =>
    if fatalScan = some row then (px, row, true)
    else scanLoop rows rowBytes fatalScan remaining (row + 1)
      (writeBytes px (row * rowBytes) (scanlineBytes rows row rowBytes))

/-- Observable outcome of one `avifJPEGRead` call: the returned boolean, the
(possibly mutated) planar image, and the resource / session bookkeeping needed
to state the cleanup and bounds claims. -/
structure DecodeResult where
  ret : Bool
  avif : AvifImage
  fileOpened : Bool
  destroyedDecompress : Bool
  fileClosed : Bool
  iccFreed : Bool
  rgbPixelsFreed : Bool
  outColorSpaceAtStart : Option JColorSpace
  rowStride : Nat
  rgbRowBytes : Nat
  rgbBufSize : Nat
  scanlinesRead : Nat
  deriving DecidableEq

/-- The single cleanup point of `avifJPEGRead` (the `cleanup:` label): destroy
the decompress session, close the file (non-NULL on every path that reaches the
label), free `iccData` (possibly NULL) and free the RGB pixel buffer. -/
def cleanupDecode (ret : Bool) (avif : AvifImage) (ocs : Option JColorSpace)
    (rowStride rgbRowBytes rgbBufSize scanlines : Nat) : DecodeResult :=
  { ret := ret
    avif := avif
    fileOpened := true
    destroyedDecompress := true
    fileClosed := true
    iccFreed := true
    rgbPixelsFreed := true
    outColorSpaceAtStart := ocs
    rowStride := rowStride
    rgbRowBytes := rgbRowBytes
    rgbBufSize := rgbBufSize
    scanlinesRead := scanlines }

/-- Tail of `avifJPEGRead` from the end of the scanline loop: if a fatal error
fired inside the loop (`res.2.2`), jump to cleanup; otherwise run the
RGB-to-YUV conversion (on failure jump to cleanup), then `jpeg_finish_decompress`
(a fatal error there jumps to cleanup with `ret` still false), then set
`ret = AVIF_TRUE` and fall through to cleanup.  `res` is the scanline-loop
outcome (buffer, rows copied, fatal fired). -/
def avifJPEGReadFinish (fatal? : Option FatalPoint) (convOK : Bool) (avif2 : AvifImage)
    (ocs : Option JColorSpace) (rowStride rgbRowBytes bufSize : Nat)
    (res : Array Nat × Nat × Bool) : DecodeResult :=
  if res.2.2 then
    cleanupDecode false avif2 ocs rowStride rgbRowBytes bufSize res.2.1
  else if convOK then
    if fatal? = some FatalPoint.atFinish then
      cleanupDecode false { avif2 with yuvPopulated := true } ocs rowStride rgbRowBytes
        bufSize res.2.1
    else
      cleanupDecode true { avif2 with yuvPopulated := true } ocs rowStride rgbRowBytes
        bufSize res.2.1
  else
    cleanupDecode false avif2 ocs rowStride rgbRowBytes bufSize res.2.1

/-- Body of `avifJPEGRead` from the point where the header has been read.
`cinfo.out_color_space = JCS_RGB` replaces the header-derived default
(`defaultOutColorSpace file.colorSpace`) before `jpeg_start_decompress`;
with RGB output the codec reports `output_components = 3`. -/
def avifJPEGReadBody (file : JPEGFile) (fatal? : Option FatalPoint) (convOK : Bool)
    (avif0 : AvifImage) (requestedFormat : AvifPixelFormat) (requestedDepth : Nat) :
    DecodeResult :=
  let ocs := JColorSpace.rgb
  if fatal? = some FatalPoint.atStartDecompress then
    cleanupDecode false avif0 (some ocs) 0 0 0 0
  else
    let rowStride := file.width * 3
    let avif1 :=
      match file.icc with
      | some bytes => avifImageSetProfileICC avif0 bytes
      | none => avif0
    let avif2 := { avif1 with
      width := file.width
      height := file.height
      yuvFormat := requestedFormat
      depth := if requestedDepth = 0 then 8 else requestedDepth
      alphaPremultiplied := false }
    let rgb := avifRGBImageAllocatePixels
      { avifRGBImageSetDefaults avif2 with format := AvifRGBFormat.rgb, depth := 8 }
    let scanFatal : Option Nat :=
      match fatal? with
      | some (FatalPoint.atScanline n) => some n
      | _ => none
    avifJPEGReadFinish fatal? convOK avif2 (some ocs) rowStride rgb.rowBytes
      rgb.pixels.size
      (scanLoop file.rows rgb.rowBytes scanFatal file.height 0 rgb.pixels)

/-- Shallow embedding of `avifJPEGRead`.  `file?` is the fopen outcome (`none`
means the file cannot be opened for reading), `fatal?` the point, if any, at
which the codec raises a fatal error through the installed error callback, and
`convOK` the outcome of the `avifImageRGBToYUV` collaborator on the completed
buffer. -/
def avifJPEGRead (file? : Option JPEGFile) (fatal? : Option FatalPoint) (convOK : Bool)
    (avif0 : AvifImage) (requestedFormat : AvifPixelFormat) (requestedDepth : Nat) :
    DecodeResult :=
  match file? with
  | none =>
    { ret := false
      avif := avif0
      fileOpened := false
      destroyedDecompress := false
      fileClosed := false
      iccFreed := false
      rgbPixelsFreed := false
      outColorSpaceAtStart := none
      rowStride := 0
      rgbRowBytes := 0
      rgbBufSize := 0
      scanlinesRead := 0 }
  | some file =>
    if fatal? = some FatalPoint.atReadHeader then
      cleanupDecode false avif0 none 0 0 0 0
    else
      avifJPEGReadBody file fatal? convOK avif0 requestedFormat requestedDepth

/-- Rows handed to `jpeg_write_scanlines`: for each scanline the codec consumes
`image_width * input_components` (= width x 3, since `input_components` is 3 in
both compile configurations) bytes from the row pointer, which is based at
`scanline * rowBytes` in the chosen buffer. -/
def rowsHanded (px : Array Nat) (rowBytes width height : Nat) : List (List Nat) :=
  (List.range height).map (fun r =>
    (List.range (width * 3)).map (fun k => px.getD (r * rowBytes + k) 0))

/-- Observable outcome of one `avifJPEGWrite` call. -/
structure EncodeResult where
  ret : Bool
  fileOpened : Bool
  jpeg : Option JPEGFile
  rgbFormatRequested : AvifRGBFormat
  fallbackPopulated : Bool
  scanRows : List (List Nat)
  deriving DecidableEq

/-- Tail of `avifJPEGWrite` from `fopen` on: open the destination, configure
the compress session from the image, embed the ICC profile when non-empty,
pump the scanlines from `buf`, finish.  `fallback` records whether the RGB-only
fallback buffer (`rgbPremultiplied`) is the one being written. -/
def avifJPEGWriteScan (canOpen : Bool) (buf : AvifRGBImage) (fmt : AvifRGBFormat)
    (fallback : Bool) (avif : AvifImage) (quality : Nat) : EncodeResult :=
  if canOpen then
    let rows := rowsHanded buf.pixels buf.rowBytes avif.width avif.height
    let jf : JPEGFile :=
      { width := avif.width
        height := avif.height
        colorSpace := JColorSpace.ycbcr
        icc := if avif.icc = [] then none else some avif.icc
        rows := rows
        quality := quality }
    { ret := true
      fileOpened := true
      jpeg := some jf
      rgbFormatRequested := fmt
      fallbackPopulated := fallback
      scanRows := rows }
  else
    { ret := false
      fileOpened := false
      jpeg := none
      rgbFormatRequested := fmt
      fallbackPopulated := fallback
      scanRows := [] }

/-- Middle of `avifJPEGWrite`: the alpha-layout fallback.  When the codec lacks
native alpha support (`alphaExt = false`) and the source alpha was not already
premultiplied, premultiply in place (abort on failure, file still unopened),
derive the RGB-only buffer with `avifRGBAToRGB`, and release the RGBA buffer;
scanlines are then drawn from `rgbPremultiplied`.  Otherwise scanlines are
drawn from `rgb` directly. -/
def avifJPEGWriteAfterConv (alphaExt canOpen premultOK : Bool)
    (rgb3 rgbPre0 : AvifRGBImage) (fmt : AvifRGBFormat) (avif : AvifImage)
    (quality : Nat) : EncodeResult :=
  if alphaExt = false ∧ avif.alphaPremultiplied = false then
    if premultOK then
      let rgb4 := avifRGBImagePremultiplyAlpha rgb3
      let pair := avifRGBAToRGB rgb4 rgbPre0
      avifJPEGWriteScan canOpen pair.2 fmt true avif quality
    else
      { ret := false
        fileOpened := false
        jpeg := none
        rgbFormatRequested := fmt
        fallbackPopulated := false
        scanRows := [] }
  else
    avifJPEGWriteScan canOpen rgb3 fmt false avif quality

/-- Shallow embedding of `avifJPEGWrite`.  `alphaExt` is the compile-time
`JCS_ALPHA_EXTENSIONS` flag, `canOpen` the fopen outcome for the destination,
`yuvOK` the outcome of `avifImageYUVToRGB` (on success the collaborator fills
the allocated buffer with the bytes `rgbFill`), and `premultOK` the outcome of
`avifRGBImagePremultiplyAlpha`. -/
def avifJPEGWrite (alphaExt canOpen yuvOK premultOK : Bool) (rgbFill : Nat → Nat)
    (avif : AvifImage) (quality : Nat) (cu : AvifChromaUpsampling) : EncodeResult :=
  let rgb0 := avifRGBImageSetDefaults avif
  let rgbPre0 := avifRGBImageSetDefaults avif
  let fmt := if avif.alphaPremultiplied then AvifRGBFormat.rgb else AvifRGBFormat.rgba
  let rgb1 := { rgb0 with
    format := fmt
    chromaUpsampling := cu
    depth := 8
    alphaPremultiplied := true }
  let rgb2 := avifRGBImageAllocatePixels rgb1
  if yuvOK then
    let rgb3 := { rgb2 with pixels := (Array.range rgb2.pixels.size).map rgbFill }
    avifJPEGWriteAfterConv alphaExt canOpen premultOK rgb3 rgbPre0 fmt avif quality
  else
    { ret := false
      fileOpened := false
      jpeg := none
      rgbFormatRequested := fmt
      fallbackPopulated := false
      scanRows := [] }

/-- The specification's reference transformation for the alpha fallback:
premultiply each RGBA pixel, then keep its first 3 bytes, uniformly over a
tightly packed w x h RGBA buffer (stride w * 4).  Stated from the spec text,
to compare with the rows the code hands the codec. -/
def specPremultiplyDropAlpha (w h : Nat) (px : Array Nat) : List (List Nat) :=
  (List.range h).map (fun j =>
    ((List.range w).map (fun i =>
      let off := j * (w * 4) + i * 4
      let a := px.getD (off + 3) 0
      [px.getD off 0 * a / 255,
       px.getD (off + 1) 0 * a / 255,
       px.getD (off + 2) 0 * a / 255])).flatten)

theorem scanLoop_no_fire (rows : List (List Nat)) (rowBytes : Nat) (fs : Option Nat) :
    ∀ (remaining row : Nat) (px : Array Nat),
    (∀ n, fs = some n → n < row ∨ row + remaining ≤ n) →
    (scanLoop rows rowBytes fs remaining row px).2 = (row + remaining, false) := by
  intro remaining
  induction remaining with
  | zero =>
    intro row px _
    simp [scanLoop]
  | succ m ih =>
    intro row px h
    have hne : fs ≠ some row := by
      intro he
      rcases h row he with h1 | h1 <;> omega
    simp only [scanLoop]
    rw [if_neg hne]
    rw [ih (row + 1) _ (fun n hn => by rcases h n hn with h1 | h1 <;> omega)]
    have harith : row + 1 + m = row + (m + 1) := by omega
    rw [harith]

theorem scanLoop_fires (rows : List (List Nat)) (rowBytes : Nat) (n : Nat) :
    ∀ (remaining row : Nat) (px : Array Nat),
    row ≤ n → n < row + remaining →
    (scanLoop rows rowBytes (some n) remaining row px).2.2 = true := by
  intro remaining
  induction remaining with
  | zero =>
    intro row px h1 h2
    omega
  | succ m ih =>
    intro row px h1 h2
    simp only [scanLoop]
    by_cases he : (some n : Option Nat) = some row
    · rw [if_pos he]
    · rw [if_neg he]
      have hrn : n ≠ row := fun hh => he (by rw [hh])
      exact ih (row + 1) _ (by omega) (by omega)

theorem finish_ocs (fatal? : Option FatalPoint) (convOK : Bool) (avif2 : AvifImage)
    (ocs : Option JColorSpace) (rowStride rgbRowBytes bufSize : Nat)
    (res : Array Nat × Nat × Bool) :
    (avifJPEGReadFinish fatal? convOK avif2 ocs rowStride rgbRowBytes bufSize
      res).outColorSpaceAtStart = ocs := by
  rcases res with ⟨px, n, fired⟩
  cases fired <;> cases convOK <;>
    by_cases hf : fatal? = some FatalPoint.atFinish <;>
      simp [avifJPEGReadFinish, cleanupDecode, hf]

theorem finish_stats (fatal? : Option FatalPoint) (convOK : Bool) (avif2 : AvifImage)
    (ocs : Option JColorSpace) (rowStride rgbRowBytes bufSize : Nat)
    (res : Array Nat × Nat × Bool) :
    (avifJPEGReadFinish fatal? convOK avif2 ocs rowStride rgbRowBytes bufSize
      res).rowStride = rowStride ∧
    (avifJPEGReadFinish fatal? convOK avif2 ocs rowStride rgbRowBytes bufSize
      res).rgbRowBytes = rgbRowBytes ∧
    (avifJPEGReadFinish fatal? convOK avif2 ocs rowStride rgbRowBytes bufSize
      res).rgbBufSize = bufSize ∧
    (avifJPEGReadFinish fatal? convOK avif2 ocs rowStride rgbRowBytes bufSize
      res).scanlinesRead = res.2.1 := by
  rcases res with ⟨px, n, fired⟩
  cases fired <;> cases convOK <;>
    by_cases hf : fatal? = some FatalPoint.atFinish <;>
      simp [avifJPEGReadFinish, cleanupDecode, hf]

theorem finish_cleanup_flags (fatal? : Option FatalPoint) (convOK : Bool)
    (avif2 : AvifImage) (ocs : Option JColorSpace) (rowStride rgbRowBytes bufSize : Nat)
    (res : Array Nat × Nat × Bool) :
    (avifJPEGReadFinish fatal? convOK avif2 ocs rowStride rgbRowBytes bufSize
      res).destroyedDecompress = true ∧
    (avifJPEGReadFinish fatal? convOK avif2 ocs rowStride rgbRowBytes bufSize
      res).fileClosed = true ∧
    (avifJPEGReadFinish fatal? convOK avif2 ocs rowStride rgbRowBytes bufSize
      res).iccFreed = true ∧
    (avifJPEGReadFinish fatal? convOK avif2 ocs rowStride rgbRowBytes bufSize
      res).rgbPixelsFreed = true := by
  rcases res with ⟨px, n, fired⟩
  cases fired <;> cases convOK <;>
    by_cases hf : fatal? = some FatalPoint.atFinish <;>
      simp [avifJPEGReadFinish, cleanupDecode, hf]

theorem finish_fired_ret (fatal? : Option FatalPoint) (convOK : Bool) (avif2 : AvifImage)
    (ocs : Option JColorSpace) (rowStride rgbRowBytes bufSize : Nat)
    (res : Array Nat × Nat × Bool) (h : res.2.2 = true) :
    (avifJPEGReadFinish fatal? convOK avif2 ocs rowStride rgbRowBytes bufSize
      res).ret = false := by
  simp [avifJPEGReadFinish, h, cleanupDecode]

theorem finish_atFinish_ret (convOK : Bool) (avif2 : AvifImage)
    (ocs : Option JColorSpace) (rowStride rgbRowBytes bufSize : Nat)
    (res : Array Nat × Nat × Bool) :
    (avifJPEGReadFinish (some FatalPoint.atFinish) convOK avif2 ocs rowStride rgbRowBytes
      bufSize res).ret = false := by
  rcases res with ⟨px, n, fired⟩
  cases fired <;> cases convOK <;> simp [avifJPEGReadFinish, cleanupDecode]

theorem finish_conv_false (fatal? : Option FatalPoint) (avif2 : AvifImage)
    (ocs : Option JColorSpace) (rowStride rgbRowBytes bufSize : Nat)
    (res : Array Nat × Nat × Bool) :
    (avifJPEGReadFinish fatal? false avif2 ocs rowStride rgbRowBytes bufSize
      res).ret = false ∧
    (avifJPEGReadFinish fatal? false avif2 ocs rowStride rgbRowBytes bufSize
      res).avif = avif2 := by
  rcases res with ⟨px, n, fired⟩
  cases fired <;> simp [avifJPEGReadFinish, cleanupDecode]

theorem finish_ret_true_avif (fatal? : Option FatalPoint) (convOK : Bool)
    (avif2 : AvifImage) (ocs : Option JColorSpace) (rowStride rgbRowBytes bufSize : Nat)
    (res : Array Nat × Nat × Bool)
    (h : (avifJPEGReadFinish fatal? convOK avif2 ocs rowStride rgbRowBytes bufSize
      res).ret = true) :
    (avifJPEGReadFinish fatal? convOK avif2 ocs rowStride rgbRowBytes bufSize
      res).avif = { avif2 with yuvPopulated := true } := by
  rcases res with ⟨px, n, fired⟩
  cases fired <;> cases convOK <;>
    by_cases hf : fatal? = some FatalPoint.atFinish <;>
      simp_all [avifJPEGReadFinish, cleanupDecode, hf]

/-- C8: when the input file cannot be opened for reading, `avifJPEGRead` returns
failure immediately: the planar image is untouched, and no resource (file
handle, codec session, ICC bytes, pixel buffer) was acquired, so none is
released. -/
theorem claim8_open_failure (fatal? : Option FatalPoint) (convOK : Bool)
    (avif0 : AvifImage) (fmtReq : AvifPixelFormat) (depthReq : Nat) :
    (avifJPEGRead none fatal? convOK avif0 fmtReq depthReq).ret = false ∧
    (avifJPEGRead none fatal? convOK avif0 fmtReq depthReq).avif = avif0 ∧
    (avifJPEGRead none fatal? convOK avif0 fmtReq depthReq).fileOpened = false ∧
    (avifJPEGRead none fatal? convOK avif0 fmtReq depthReq).destroyedDecompress = false ∧
    (avifJPEGRead none fatal? convOK avif0 fmtReq depthReq).fileClosed = false ∧
    (avifJPEGRead none fatal? convOK avif0 fmtReq depthReq).iccFreed = false ∧
    (avifJPEGRead none fatal? convOK avif0 fmtReq depthReq).rgbPixelsFreed = false := by
  refine ⟨rfl, rfl, rfl, rfl, rfl, rfl, rfl⟩

/-- C9: for every JPEG source (any native colorspace) whose header is read
without a fatal error, the decompress session's output colorspace at the moment
`jpeg_start_decompress` is invoked is plain RGB. -/
theorem claim9_forced_rgb (file : JPEGFile) (fatal? : Option FatalPoint) (convOK : Bool)
    (avif0 : AvifImage) (fmtReq : AvifPixelFormat) (depthReq : Nat)
    (h : fatal? ≠ some FatalPoint.atReadHeader) :
    (avifJPEGRead (some file) fatal? convOK avif0 fmtReq depthReq).outColorSpaceAtStart
      = some JColorSpace.rgb := by
  simp only [avifJPEGRead]
  rw [if_neg h]
  simp only [avifJPEGReadBody]
  by_cases hs : fatal? = some FatalPoint.atStartDecompress
  · rw [if_pos hs]
    rfl
  · rw [if_neg hs]
    exact finish_ocs _ _ _ _ _ _ _ _

/-- C9 witness: a grayscale source decoded with no fatal error. -/
theorem claim9_witness :
    (avifJPEGRead
      (some { width := 1, height := 1, colorSpace := JColorSpace.grayscale,
              icc := none, rows := [[9, 9, 9]], quality := 90 })
      none true
      { width := 0, height := 0, depth := 0, yuvFormat := AvifPixelFormat.yuv444,
        alphaPremultiplied := true, icc := [], yuvPopulated := false }
      AvifPixelFormat.yuv444 0).outColorSpaceAtStart = some JColorSpace.rgb :=
  claim9_forced_rgb _ none true _ AvifPixelFormat.yuv444 0 (by decide)

/-- C6: when the RGB-to-YUV conversion collaborator rejects the completed
buffer, `avifJPEGRead` returns failure, the image's pixel planes are exactly as
unpopulated as they started, and ICC bytes copied before the conversion (when
the stream carried a profile) remain set on the image. -/
theorem claim6_conversion_failure (file : JPEGFile) (avif0 : AvifImage)
    (fmtReq : AvifPixelFormat) (depthReq : Nat) :
    (avifJPEGRead (some file) none false avif0 fmtReq depthReq).ret = false ∧
    (avifJPEGRead (some file) none false avif0 fmtReq depthReq).avif.yuvPopulated
      = avif0.yuvPopulated ∧
    (avifJPEGRead (some file) none false avif0 fmtReq depthReq).avif.icc
      = (match file.icc with
         | some bytes => bytes
         | none => avif0.icc) := by
  simp only [avifJPEGRead]
  rw [if_neg (by simp : (none : Option FatalPoint) ≠ some FatalPoint.atReadHeader)]
  simp only [avifJPEGReadBody]
  rw [if_neg (by simp : (none : Option FatalPoint) ≠ some FatalPoint.atStartDecompress)]
  refine ⟨(finish_conv_false _ _ _ _ _ _ _).1, ?_, ?_⟩ <;>
    rw [(finish_conv_false _ _ _ _ _ _ _).2] <;>
      cases hicc : file.icc <;>
        simp [avifImageSetProfileICC, hicc]

/-- C10: in the decode scanline loop the per-row copy length `rgb.rowBytes`
equals the codec-side scanline buffer size `row_stride` (= output_width x
output_components = width x 3), the loop runs exactly `output_height`
iterations writing rows 0 .. height-1, and every row's copy region lies inside
the allocated RGB buffer (whose capacity is rowBytes x height). -/
theorem claim10_scanline_bounds (file : JPEGFile) (convOK : Bool) (avif0 : AvifImage)
    (fmtReq : AvifPixelFormat) (depthReq : Nat) :
    (avifJPEGRead (some file) none convOK avif0 fmtReq depthReq).rgbRowBytes
      = (avifJPEGRead (some file) none convOK avif0 fmtReq depthReq).rowStride ∧
    (avifJPEGRead (some file) none convOK avif0 fmtReq depthReq).rowStride
      = file.width * 3 ∧
    (avifJPEGRead (some file) none convOK avif0 fmtReq depthReq).scanlinesRead
      = file.height ∧
    (avifJPEGRead (some file) none convOK avif0 fmtReq depthReq).rgbBufSize
      = (avifJPEGRead (some file) none convOK avif0 fmtReq depthReq).rgbRowBytes
        * file.height ∧
    ∀ row, row < file.height →
      (row + 1) * (avifJPEGRead (some file) none convOK avif0 fmtReq depthReq).rgbRowBytes
        ≤ (avifJPEGRead (some file) none convOK avif0 fmtReq depthReq).rgbBufSize := by
  simp only [avifJPEGRead]
  rw [if_neg (by simp : (none : Option FatalPoint) ≠ some FatalPoint.atReadHeader)]
  simp only [avifJPEGReadBody]
  rw [if_neg (by simp : (none : Option FatalPoint) ≠ some FatalPoint.atStartDecompress)]
  rw [(finish_stats _ _ _ _ _ _ _ _).1, (finish_stats _ _ _ _ _ _ _ _).2.1,
    (finish_stats _ _ _ _ _ _ _ _).2.2.1, (finish_stats _ _ _ _ _ _ _ _).2.2.2]
  rw [scanLoop_no_fire _ _ _ _ _ _ (fun n hn => by simp at hn)]
  refine ⟨?_, rfl, ?_, ?_, ?_⟩
  · simp [avifRGBImageAllocatePixels, avifRGBImageSetDefaults, AvifRGBFormat.channelCount]
  · simp
  · simp [avifRGBImageAllocatePixels, avifRGBImageSetDefaults, AvifRGBFormat.channelCount,
      Nat.mul_comm]
  · intro row hrow
    have h1 : row + 1 ≤ file.height := hrow
    have h2 := Nat.mul_le_mul_right
      ((avifRGBImageAllocatePixels
        { avifRGBImageSetDefaults avif0 with
            format := AvifRGBFormat.rgb, depth := 8 }).rowBytes) h1
    simp only [avifRGBImageAllocatePixels, avifRGBImageSetDefaults,
      AvifRGBFormat.channelCount] at h2 ⊢
    simp [Array.size_mkArray]
    calc (row + 1) * (file.width * 3) ≤ file.height * (file.width * 3) :=
        Nat.mul_le_mul_right _ h1
    _ = file.width * 3 * file.height := Nat.mul_comm _ _

/-- C10 witness: a 1 x 1 image exercises the bounds with width = height = 1. -/
theorem claim10_witness :
    (avifJPEGRead
      (some { width := 1, height := 1, colorSpace := JColorSpace.ycbcr, icc := none,
              rows := [[1, 2, 3]], quality := 90 })
      none true
      { width := 0, height := 0, depth := 0, yuvFormat := AvifPixelFormat.yuv444,
        alphaPremultiplied := false, icc := [], yuvPopulated := false }
      AvifPixelFormat.yuv444 0).scanlinesRead = 1 ∧
    (0 + 1) * (avifJPEGRead
      (some { width := 1, height := 1, colorSpace := JColorSpace.ycbcr, icc := none,
              rows := [[1, 2, 3]], quality := 90 })
      none true
      { width := 0, height := 0, depth := 0, yuvFormat := AvifPixelFormat.yuv444,
        alphaPremultiplied := false, icc := [], yuvPopulated := false }
      AvifPixelFormat.yuv444 0).rgbRowBytes
      ≤ (avifJPEGRead
      (some { width := 1, height := 1, colorSpace := JColorSpace.ycbcr, icc := none,
              rows := [[1, 2, 3]], quality := 90 })
      none true
      { width := 0, height := 0, depth := 0, yuvFormat := AvifPixelFormat.yuv444,
        alphaPremultiplied := false, icc := [], yuvPopulated := false }
      AvifPixelFormat.yuv444 0).rgbBufSize :=
  ⟨(claim10_scanline_bounds _ true _ AvifPixelFormat.yuv444 0).2.2.1,
   (claim10_scanline_bounds _ true _ AvifPixelFormat.yuv444 0).2.2.2.2 0 (by decide)⟩

/-- C3: every successful decode sets the image's width and height from the
codec's reported output dimensions, the depth from the caller's request
(8 when the request is 0), the chroma format from the caller's request, and
the alpha-premultiplied flag to false. -/
theorem claim3_successful_decode_fields (file : JPEGFile) (fatal? : Option FatalPoint)
    (convOK : Bool) (avif0 : AvifImage) (fmtReq : AvifPixelFormat) (depthReq : Nat)
    (h : (avifJPEGRead (some file) fatal? convOK avif0 fmtReq depthReq).ret = true) :
    (avifJPEGRead (some file) fatal? convOK avif0 fmtReq depthReq).avif.width
      = file.width ∧
    (avifJPEGRead (some file) fatal? convOK avif0 fmtReq depthReq).avif.height
      = file.height ∧
    (avifJPEGRead (some file) fatal? convOK avif0 fmtReq depthReq).avif.depth
      = (if depthReq = 0 then 8 else depthReq) ∧
    (avifJPEGRead (some file) fatal? convOK avif0 fmtReq depthReq).avif.yuvFormat
      = fmtReq ∧
    (avifJPEGRead (some file) fatal? convOK avif0 fmtReq depthReq).avif.alphaPremultiplied
      = false := by
  simp only [avifJPEGRead] at h ⊢
  by_cases hh : fatal? = some FatalPoint.atReadHeader
  · rw [if_pos hh] at h
    exact absurd h (by simp [cleanupDecode])
  · rw [if_neg hh] at h ⊢
    simp only [avifJPEGReadBody] at h ⊢
    by_cases hs : fatal? = some FatalPoint.atStartDecompress
    · rw [if_pos hs] at h
      exact absurd h (by simp [cleanupDecode])
    · rw [if_neg hs] at h ⊢
      rw [finish_ret_true_avif _ _ _ _ _ _ _ _ h]
      exact ⟨rfl, rfl, rfl, rfl, rfl⟩

/-- C3 witness: a 2 x 1 stream decoded with requested depth 0 and format 4:2:0. -/
theorem claim3_witness :
    (avifJPEGRead
      (some { width := 2, height := 1, colorSpace := JColorSpace.ycbcr, icc := some [7],
              rows := [[1, 2, 3, 4, 5, 6]], quality := 80 })
      none true
      { width := 9, height := 9, depth := 12, yuvFormat := AvifPixelFormat.yuv400,
        alphaPremultiplied := true, icc := [], yuvPopulated := false }
      AvifPixelFormat.yuv420 0).avif.width = 2 ∧
    (avifJPEGRead
      (some { width := 2, height := 1, colorSpace := JColorSpace.ycbcr, icc := some [7],
              rows := [[1, 2, 3, 4, 5, 6]], quality := 80 })
      none true
      { width := 9, height := 9, depth := 12, yuvFormat := AvifPixelFormat.yuv400,
        alphaPremultiplied := true, icc := [], yuvPopulated := false }
      AvifPixelFormat.yuv420 0).avif.height = 1 ∧
    (avifJPEGRead
      (some { width := 2, height := 1, colorSpace := JColorSpace.ycbcr, icc := some [7],
              rows := [[1, 2, 3, 4, 5, 6]], quality := 80 })
      none true
      { width := 9, height := 9, depth := 12, yuvFormat := AvifPixelFormat.yuv400,
        alphaPremultiplied := true, icc := [], yuvPopulated := false }
      AvifPixelFormat.yuv420 0).avif.depth = 8 ∧
    (avifJPEGRead
      (some { width := 2, height := 1, colorSpace := JColorSpace.ycbcr, icc := some [7],
              rows := [[1, 2, 3, 4, 5, 6]], quality := 80 })
      none true
      { width := 9, height := 9, depth := 12, yuvFormat := AvifPixelFormat.yuv400,
        alphaPremultiplied := true, icc := [], yuvPopulated := false }
      AvifPixelFormat.yuv420 0).avif.yuvFormat = AvifPixelFormat.yuv420 ∧
    (avifJPEGRead
      (some { width := 2, height := 1, colorSpace := JColorSpace.ycbcr, icc := some [7],
              rows := [[1, 2, 3, 4, 5, 6]], quality := 80 })
      none true
      { width := 9, height := 9, depth := 12, yuvFormat := AvifPixelFormat.yuv400,
        alphaPremultiplied := true, icc := [], yuvPopulated := false }
      AvifPixelFormat.yuv420 0).avif.alphaPremultiplied = false :=
  claim3_successful_decode_fields _ none true _ AvifPixelFormat.yuv420 0 (by decide)

/-- C4: every codec-internal fatal error that fires during decode transfers
control to the single cleanup point: the decompress session is destroyed, the
file handle closed, the ICC bytes and the RGB pixel buffer freed, and the call
returns failure. -/
theorem claim4_fatal_cleanup (file : JPEGFile) (fp : FatalPoint) (convOK : Bool)
    (avif0 : AvifImage) (fmtReq : AvifPixelFormat) (depthReq : Nat)
    (h : fp.fires file = true) :
    (avifJPEGRead (some file) (some fp) convOK avif0 fmtReq depthReq).ret = false ∧
    (avifJPEGRead (some file) (some fp) convOK avif0 fmtReq depthReq).destroyedDecompress
      = true ∧
    (avifJPEGRead (some file) (some fp) convOK avif0 fmtReq depthReq).fileClosed = true ∧
    (avifJPEGRead (some file) (some fp) convOK avif0 fmtReq depthReq).iccFreed = true ∧
    (avifJPEGRead (some file) (some fp) convOK avif0 fmtReq depthReq).rgbPixelsFreed
      = true := by
  simp only [avifJPEGRead]
  cases fp with
  | atReadHeader =>
    rw [if_pos rfl]
    exact ⟨rfl, rfl, rfl, rfl, rfl⟩
  | atStartDecompress =>
    rw [if_neg (by simp)]
    simp only [avifJPEGReadBody]
    rw [if_pos (by simp)]
    exact ⟨rfl, rfl, rfl, rfl, rfl⟩
  | atFinish =>
    rw [if_neg (by simp)]
    simp only [avifJPEGReadBody]
    rw [if_neg (by simp)]
    exact ⟨finish_atFinish_ret _ _ _ _ _ _ _,
      (finish_cleanup_flags _ _ _ _ _ _ _ _).1,
      (finish_cleanup_flags _ _ _ _ _ _ _ _).2.1,
      (finish_cleanup_flags _ _ _ _ _ _ _ _).2.2.1,
      (finish_cleanup_flags _ _ _ _ _ _ _ _).2.2.2⟩
  | atScanline n =>
    have hn : n < file.height := by simpa [FatalPoint.fires] using h
    rw [if_neg (by simp)]
    simp only [avifJPEGReadBody]
    rw [if_neg (by simp)]
    exact ⟨finish_fired_ret _ _ _ _ _ _ _ _
        (scanLoop_fires _ _ _ _ _ _ (Nat.zero_le n) (by omega)),
      (finish_cleanup_flags _ _ _ _ _ _ _ _).1,
      (finish_cleanup_flags _ _ _ _ _ _ _ _).2.1,
      (finish_cleanup_flags _ _ _ _ _ _ _ _).2.2.1,
      (finish_cleanup_flags _ _ _ _ _ _ _ _).2.2.2⟩

/-- C4 witness: a fatal error while reading the first scanline of a 1 x 1
stream ends in cleanup with failure. -/
theorem claim4_witness :
    FatalPoint.fires (FatalPoint.atScanline 0)
      { width := 1, height := 1, colorSpace := JColorSpace.ycbcr, icc := none,
        rows := [[1, 2, 3]], quality := 50 } = true ∧
    ((avifJPEGRead
      (some { width := 1, height := 1, colorSpace := JColorSpace.ycbcr, icc := none,
              rows := [[1, 2, 3]], quality := 50 })
      (some (FatalPoint.atScanline 0)) true
      { width := 0, height := 0, depth := 0, yuvFormat := AvifPixelFormat.yuv444,
        alphaPremultiplied := false, icc := [], yuvPopulated := false }
      AvifPixelFormat.yuv444 8).ret = false ∧
    (avifJPEGRead
      (some { width := 1, height := 1, colorSpace := JColorSpace.ycbcr, icc := none,
              rows := [[1, 2, 3]], quality := 50 })
      (some (FatalPoint.atScanline 0)) true
      { width := 0, height := 0, depth := 0, yuvFormat := AvifPixelFormat.yuv444,
        alphaPremultiplied := false, icc := [], yuvPopulated := false }
      AvifPixelFormat.yuv444 8).destroyedDecompress = true ∧
    (avifJPEGRead
      (some { width := 1, height := 1, colorSpace := JColorSpace.ycbcr, icc := none,
              rows := [[1, 2, 3]], quality := 50 })
      (some (FatalPoint.atScanline 0)) true
      { width := 0, height := 0, depth := 0, yuvFormat := AvifPixelFormat.yuv444,
        alphaPremultiplied := false, icc := [], yuvPopulated := false }
      AvifPixelFormat.yuv444 8).fileClosed = true ∧
    (avifJPEGRead
      (some { width := 1, height := 1, colorSpace := JColorSpace.ycbcr, icc := none,
              rows := [[1, 2, 3]], quality := 50 })
      (some (FatalPoint.atScanline 0)) true
      { width := 0, height := 0, depth := 0, yuvFormat := AvifPixelFormat.yuv444,
        alphaPremultiplied := false, icc := [], yuvPopulated := false }
      AvifPixelFormat.yuv444 8).iccFreed = true ∧
    (avifJPEGRead
      (some { width := 1, height := 1, colorSpace := JColorSpace.ycbcr, icc := none,
              rows := [[1, 2, 3]], quality := 50 })
      (some (FatalPoint.atScanline 0)) true
      { width := 0, height := 0, depth := 0, yuvFormat := AvifPixelFormat.yuv444,
        alphaPremultiplied := false, icc := [], yuvPopulated := false }
      AvifPixelFormat.yuv444 8).rgbPixelsFreed = true) :=
  ⟨by decide, claim4_fatal_cleanup _ _ true _ AvifPixelFormat.yuv444 8 (by decide)⟩

theorem finish_scan_none (rows : List (List Nat)) (rowBytes height : Nat) (px : Array Nat)
    (avif2 : AvifImage) (ocs : Option JColorSpace) (rowStride bufSize : Nat) :
    avifJPEGReadFinish none true avif2 ocs rowStride rowBytes bufSize
      (scanLoop rows rowBytes none height 0 px)
      = cleanupDecode true { avif2 with yuvPopulated := true } ocs rowStride rowBytes
          bufSize height := by
  have h := scanLoop_no_fire rows rowBytes none height 0 px (fun n hn => by simp at hn)
  simp only [avifJPEGReadFinish]
  rw [h]
  simp

theorem decode_ok_fields (jf : JPEGFile) (avif0 : AvifImage) (fmtReq : AvifPixelFormat)
    (depthReq : Nat) :
    (avifJPEGRead (some jf) none true avif0 fmtReq depthReq).avif.width = jf.width ∧
    (avifJPEGRead (some jf) none true avif0 fmtReq depthReq).avif.height = jf.height ∧
    (avifJPEGRead (some jf) none true avif0 fmtReq depthReq).avif.icc
      = (match jf.icc with
         | some bytes => bytes
         | none => avif0.icc) := by
  simp only [avifJPEGRead]
  rw [if_neg (by simp : (none : Option FatalPoint) ≠ some FatalPoint.atReadHeader)]
  simp only [avifJPEGReadBody]
  rw [if_neg (by simp : (none : Option FatalPoint) ≠ some FatalPoint.atStartDecompress)]
  rw [finish_scan_none]
  refine ⟨rfl, rfl, ?_⟩
  rcases hicc : jf.icc with _ | b <;> simp [hicc, avifImageSetProfileICC, cleanupDecode]

theorem write_ok_jpeg_map (alphaExt : Bool) (rgbFill : Nat → Nat) (avif : AvifImage)
    (quality : Nat) (cu : AvifChromaUpsampling) :
    Option.map JPEGFile.width
      (avifJPEGWrite alphaExt true true true rgbFill avif quality cu).jpeg
      = some avif.width ∧
    Option.map JPEGFile.height
      (avifJPEGWrite alphaExt true true true rgbFill avif quality cu).jpeg
      = some avif.height ∧
    Option.map JPEGFile.icc
      (avifJPEGWrite alphaExt true true true rgbFill avif quality cu).jpeg
      = some (if avif.icc = [] then none else some avif.icc) := by
  cases halpha : avif.alphaPremultiplied <;> cases alphaExt <;>
    simp [avifJPEGWrite, avifJPEGWriteAfterConv, avifJPEGWriteScan, halpha]

/-- C5: an encode (with the destination writable and both conversions
succeeding) followed by a decode of the produced stream (no codec fatal error,
conversion succeeding) preserves width and height exactly, and when the source
image carried a non-empty ICC profile the decoded image's profile bytes equal
the source's byte for byte. -/
theorem claim5_roundtrip (alphaExt : Bool) (rgbFill : Nat → Nat) (avif : AvifImage)
    (quality : Nat) (cu : AvifChromaUpsampling) (avif0 : AvifImage)
    (fmtReq : AvifPixelFormat) (depthReq : Nat) :
    (avifJPEGRead (avifJPEGWrite alphaExt true true true rgbFill avif quality cu).jpeg
      none true avif0 fmtReq depthReq).avif.width = avif.width ∧
    (avifJPEGRead (avifJPEGWrite alphaExt true true true rgbFill avif quality cu).jpeg
      none true avif0 fmtReq depthReq).avif.height = avif.height ∧
    (avif.icc ≠ [] →
      (avifJPEGRead (avifJPEGWrite alphaExt true true true rgbFill avif quality cu).jpeg
        none true avif0 fmtReq depthReq).avif.icc = avif.icc) := by
  have hmap := write_ok_jpeg_map alphaExt rgbFill avif quality cu
  rcases hjf : (avifJPEGWrite alphaExt true true true rgbFill avif quality cu).jpeg
    with _ | jf
  · rw [hjf] at hmap
    simp at hmap
  · rw [hjf] at hmap
    simp only [Option.map_some', Option.some.injEq] at hmap
    obtain ⟨hw, hh, hicc⟩ := hmap
    have hk := decode_ok_fields jf avif0 fmtReq depthReq
    refine ⟨?_, ?_, ?_⟩
    · rw [hk.1, hw]
    · rw [hk.2.1, hh]
    · intro hne
      rw [hk.2.2, hicc]
      simp [hne]

/-- C5 witness: a 2 x 1 image with profile bytes [1, 2, 3] round-trips. -/
theorem claim5_witness :
    (avifJPEGRead (avifJPEGWrite true true true true (fun _ => 7)
        { width := 2, height := 1, depth := 8, yuvFormat := AvifPixelFormat.yuv444,
          alphaPremultiplied := false, icc := [1, 2, 3], yuvPopulated := true } 75
        AvifChromaUpsampling.automatic).jpeg
      none true
      { width := 0, height := 0, depth := 0, yuvFormat := AvifPixelFormat.yuv444,
        alphaPremultiplied := false, icc := [], yuvPopulated := false }
      AvifPixelFormat.yuv420 0).avif.width = 2 ∧
    (avifJPEGRead (avifJPEGWrite true true true true (fun _ => 7)
        { width := 2, height := 1, depth := 8, yuvFormat := AvifPixelFormat.yuv444,
          alphaPremultiplied := false, icc := [1, 2, 3], yuvPopulated := true } 75
        AvifChromaUpsampling.automatic).jpeg
      none true
      { width := 0, height := 0, depth := 0, yuvFormat := AvifPixelFormat.yuv444,
        alphaPremultiplied := false, icc := [], yuvPopulated := false }
      AvifPixelFormat.yuv420 0).avif.height = 1 ∧
    (avifJPEGRead (avifJPEGWrite true true true true (fun _ => 7)
        { width := 2, height := 1, depth := 8, yuvFormat := AvifPixelFormat.yuv444,
          alphaPremultiplied := false, icc := [1, 2, 3], yuvPopulated := true } 75
        AvifChromaUpsampling.automatic).jpeg
      none true
      { width := 0, height := 0, depth := 0, yuvFormat := AvifPixelFormat.yuv444,
        alphaPremultiplied := false, icc := [], yuvPopulated := false }
      AvifPixelFormat.yuv420 0).avif.icc = [1, 2, 3] :=
  ⟨(claim5_roundtrip true (fun _ => 7)
      { width := 2, height := 1, depth := 8, yuvFormat := AvifPixelFormat.yuv444,
        alphaPremultiplied := false, icc := [1, 2, 3], yuvPopulated := true } 75
      AvifChromaUpsampling.automatic
      { width := 0, height := 0, depth := 0, yuvFormat := AvifPixelFormat.yuv444,
        alphaPremultiplied := false, icc := [], yuvPopulated := false }
      AvifPixelFormat.yuv420 0).1,
   (claim5_roundtrip true (fun _ => 7)
      { width := 2, height := 1, depth := 8, yuvFormat := AvifPixelFormat.yuv444,
        alphaPremultiplied := false, icc := [1, 2, 3], yuvPopulated := true } 75
      AvifChromaUpsampling.automatic
      { width := 0, height := 0, depth := 0, yuvFormat := AvifPixelFormat.yuv444,
        alphaPremultiplied := false, icc := [], yuvPopulated := false }
      AvifPixelFormat.yuv420 0).2.1,
   (claim5_roundtrip true (fun _ => 7)
      { width := 2, height := 1, depth := 8, yuvFormat := AvifPixelFormat.yuv444,
        alphaPremultiplied := false, icc := [1, 2, 3], yuvPopulated := true } 75
      AvifChromaUpsampling.automatic
      { width := 0, height := 0, depth := 0, yuvFormat := AvifPixelFormat.yuv444,
        alphaPremultiplied := false, icc := [], yuvPopulated := false }
      AvifPixelFormat.yuv420 0).2.2 (by decide)⟩

/-- C2 counterexample: with `JCS_ALPHA_EXTENSIONS` defined, an image whose
alpha is already premultiplied makes `avifJPEGWrite` request an RGB buffer,
not RGBA — `rgb.format = avif->alphaPremultiplied ? RGB : RGBA` is not guarded
by the compile-time flag. -/
theorem claim2_counterexample :
    (avifJPEGWrite true true true true (fun _ => 0)
      { width := 1, height := 1, depth := 8, yuvFormat := AvifPixelFormat.yuv444,
        alphaPremultiplied := true, icc := [], yuvPopulated := true } 90
      AvifChromaUpsampling.automatic).rgbFormatRequested ≠ AvifRGBFormat.rgba := by
  decide

/-- C2 (amended): with `JCS_ALPHA_EXTENSIONS` defined, `avifJPEGWrite` requests
an RGBA buffer exactly when the image's alpha is not premultiplied (RGB when it
is), and the RGB-only fallback buffer is never populated on that path. -/
theorem claim2_amended (canOpen yuvOK premultOK : Bool) (rgbFill : Nat → Nat)
    (avif : AvifImage) (quality : Nat) (cu : AvifChromaUpsampling) :
    (avifJPEGWrite true canOpen yuvOK premultOK rgbFill avif quality cu).rgbFormatRequested
      = (if avif.alphaPremultiplied then AvifRGBFormat.rgb else AvifRGBFormat.rgba) ∧
    (avifJPEGWrite true canOpen yuvOK premultOK rgbFill avif quality cu).fallbackPopulated
      = false := by
  cases yuvOK <;> cases canOpen <;>
    simp [avifJPEGWrite, avifJPEGWriteAfterConv, avifJPEGWriteScan]

/-- C7: when the YUV-to-RGB conversion fails, or when (on the fallback path)
alpha premultiplication fails, `avifJPEGWrite` returns failure with the
destination file never opened and no stream produced. -/
theorem claim7_encode_early_failures (alphaExt canOpen premultOK : Bool)
    (rgbFill : Nat → Nat) (avif : AvifImage) (quality : Nat)
    (cu : AvifChromaUpsampling) :
    ((avifJPEGWrite alphaExt canOpen false premultOK rgbFill avif quality cu).ret
        = false ∧
     (avifJPEGWrite alphaExt canOpen false premultOK rgbFill avif quality cu).fileOpened
        = false ∧
     (avifJPEGWrite alphaExt canOpen false premultOK rgbFill avif quality cu).jpeg
        = none) ∧
    (avif.alphaPremultiplied = false →
      ((avifJPEGWrite false canOpen true false rgbFill avif quality cu).ret = false ∧
       (avifJPEGWrite false canOpen true false rgbFill avif quality cu).fileOpened
          = false ∧
       (avifJPEGWrite false canOpen true false rgbFill avif quality cu).jpeg = none)) := by
  constructor
  · exact ⟨rfl, rfl, rfl⟩
  · intro hpre
    simp [avifJPEGWrite, avifJPEGWriteAfterConv, hpre]

/-- C7 witness: a straight-alpha image, conversion failure and premultiplication
failure respectively. -/
theorem claim7_witness :
    ((avifJPEGWrite false true false true (fun _ => 0)
      { width := 1, height := 1, depth := 8, yuvFormat := AvifPixelFormat.yuv444,
        alphaPremultiplied := false, icc := [], yuvPopulated := true } 10
      AvifChromaUpsampling.automatic).ret = false ∧
     (avifJPEGWrite false true false true (fun _ => 0)
      { width := 1, height := 1, depth := 8, yuvFormat := AvifPixelFormat.yuv444,
        alphaPremultiplied := false, icc := [], yuvPopulated := true } 10
      AvifChromaUpsampling.automatic).fileOpened = false ∧
     (avifJPEGWrite false true false true (fun _ => 0)
      { width := 1, height := 1, depth := 8, yuvFormat := AvifPixelFormat.yuv444,
        alphaPremultiplied := false, icc := [], yuvPopulated := true } 10
      AvifChromaUpsampling.automatic).jpeg = none) ∧
    ((avifJPEGWrite false true true false (fun _ => 0)
      { width := 1, height := 1, depth := 8, yuvFormat := AvifPixelFormat.yuv444,
        alphaPremultiplied := false, icc := [], yuvPopulated := true } 10
      AvifChromaUpsampling.automatic).ret = false ∧
     (avifJPEGWrite false true true false (fun _ => 0)
      { width := 1, height := 1, depth := 8, yuvFormat := AvifPixelFormat.yuv444,
        alphaPremultiplied := false, icc := [], yuvPopulated := true } 10
      AvifChromaUpsampling.automatic).fileOpened = false ∧
     (avifJPEGWrite false true true false (fun _ => 0)
      { width := 1, height := 1, depth := 8, yuvFormat := AvifPixelFormat.yuv444,
        alphaPremultiplied := false, icc := [], yuvPopulated := true } 10
      AvifChromaUpsampling.automatic).jpeg = none) :=
  ⟨(claim7_encode_early_failures false true true (fun _ => 0)
      { width := 1, height := 1, depth := 8, yuvFormat := AvifPixelFormat.yuv444,
        alphaPremultiplied := false, icc := [], yuvPopulated := true } 10
      AvifChromaUpsampling.automatic).1,
   (claim7_encode_early_failures false true true (fun _ => 0)
      { width := 1, height := 1, depth := 8, yuvFormat := AvifPixelFormat.yuv444,
        alphaPremultiplied := false, icc := [], yuvPopulated := true } 10
      AvifChromaUpsampling.automatic).2 rfl⟩

/-- C1 (divergence witness): on a 1 x 1 straight-alpha image whose RGBA
conversion yields pixel (10, 20, 30, alpha 255), the fallback path of
`avifJPEGWrite` (codec without `JCS_ALPHA_EXTENSIONS`) hands the codec the
never-written destination buffer (all zero bytes in this model, uninitialised
memory in C), not the premultiply-then-drop-alpha image [[10, 20, 30]] that
the specification requires: `avifRGBAToRGB` writes through `src->pixels`
instead of `dst->pixels`. -/
theorem claim1_codec_rows_diverge :
    (avifJPEGWrite false true true true (fun k => [10, 20, 30, 255].getD k 0)
      { width := 1, height := 1, depth := 8, yuvFormat := AvifPixelFormat.yuv444,
        alphaPremultiplied := false, icc := [], yuvPopulated := true } 90
      AvifChromaUpsampling.automatic).scanRows = [[0, 0, 0]] ∧
    specPremultiplyDropAlpha 1 1 #[10, 20, 30, 255] = [[10, 20, 30]] ∧
    (avifJPEGWrite false true true true (fun k => [10, 20, 30, 255].getD k 0)
      { width := 1, height := 1, depth := 8, yuvFormat := AvifPixelFormat.yuv444,
        alphaPremultiplied := false, icc := [], yuvPopulated := true } 90
      AvifChromaUpsampling.automatic).scanRows
      ≠ specPremultiplyDropAlpha 1 1 #[10, 20, 30, 255] := by
  decide
